import Mathlib

/-!
Verification of the HTTP access layer of the agileplace-mcp-server repository:
the credential resolver (`agileplace_mcp/auth.py`, class `AgilePlaceAuth`) and
the rate-limit-aware request executor (`src/client.py`, class
`AgilePlaceClient`).

The Python code is shallowly embedded: JSON values form an inductive type,
an HTTP response is a record of its status, raw text, JSON-parse result and
`Retry-After` header, and the retry loop is a structurally recursive function
over the number of remaining attempts.  The external `datetime.strptime`
HTTP-date parser is abstracted as a function parameter
`parse : String → Option Int` (returning `none` where the library raises
`ValueError`); timestamps are Ints (epoch seconds).
-/

namespace AgilePlace

/-- JSON values, as produced by `response.json()`. -/
inductive Json where
  | null : Json
  | bool : Bool → Json
  | num : Int → Json
  | str : String → Json
  | arr : List Json → Json
  | obj : List (String × Json) → Json
deriving Repr

/-- Python `dict.get(key)` on a parsed JSON object: the value of the first
binding of `key`, if any (Python dicts have unique keys). -/
def dictGet (key : String) : List (String × Json) → Option Json
  | [] => none
  | (k, v) :: rest => if k = key then some v else dictGet key rest

/-- Python truthiness of an `Optional[str]`: `False` for `None` and `""`. -/
def truthy : Option String → Bool
  | none => false
  | some s => s ≠ ""

/-- Python `a or b` on `Optional[str]` operands (used for
`domain or os.getenv(...)` and `api_token or os.getenv(...)`). -/
def pyOr (a b : Option String) : Option String :=
  if truthy a then a else b

/-! ## Credential resolver: `agileplace_mcp/auth.py`

`AgilePlaceAuth.__init__` resolves domain and token from the explicit
arguments with environment-variable fallback, raises `AgilePlaceAuthError`
when either resolves empty, and then strips protocol substrings with
`self.domain.replace("https://", "").replace("http://", "")`. -/

/-- One step list of `Python str.replace(pat, "")`: removes every
non-overlapping occurrence of `pat`, scanning left to right, with
`fuel` bounding the recursion (sufficient whenever `fuel ≥ s.length`). -/
def removeAllFuel (pat : List Char) : Nat → List Char → List Char
  | 0, _ => []
  | _, [] => []
  | fuel + 1, c :: rest =>
    if pat.isPrefixOf (c :: rest) then
      removeAllFuel pat fuel (rest.drop (pat.length - 1))
    else
      c :: removeAllFuel pat fuel rest

/-- `removeAllFuel` with the canonical sufficient fuel. -/
def removeAll (pat s : List Char) : List Char :=
  removeAllFuel pat s.length s

/-- Python `s.replace(pat, "")` for a non-empty pattern `pat`. -/
def pyReplaceEmpty (s pat : String) : String :=
  ⟨removeAll pat.toList s.toList⟩

/-- `self.domain.replace("https://", "").replace("http://", "")`
(auth.py line 49). -/
def stripProtocol (d : String) : String :=
  pyReplaceEmpty (pyReplaceEmpty d "https://") "http://"

/-- The stripping operation as the spec claims it: remove a single leading
`https://` or `http://` prefix, case-sensitively, and leave every other
occurrence intact.  Stated from the spec sentence for comparison with
`stripProtocol`, which embeds the code. -/
def stripProtocolClaimed (d : String) : String :=
  if "https://".toList.isPrefixOf d.toList then ⟨d.toList.drop 8⟩
  else if "http://".toList.isPrefixOf d.toList then ⟨d.toList.drop 7⟩
  else d

/-- Resolved credentials: `self.domain` (post-strip) and `self.api_token`. -/
structure Auth where
  domain : String
  api_token : String
deriving Repr, DecidableEq

/-- Result of `AgilePlaceAuth.__init__`: either a constructed instance or a
raised `AgilePlaceAuthError` carrying its message. -/
inductive AuthResult where
  | ok : Auth → AuthResult
  | authError : String → AuthResult
deriving Repr, DecidableEq

/-- The message of the `AgilePlaceAuthError` raised when the domain resolves
empty (auth.py lines 37-40). -/
def domainErrorMessage : String :=
  "AGILEPLACE_DOMAIN environment variable is required. " ++
  "Set it to your AgilePlace domain (e.g., \x27mycompany.leankit.com\x27)"

/-- Prefix of the token-missing error message, before the interpolated
domain (auth.py lines 43-46). -/
def tokenErrorPrefix : String :=
  "AGILEPLACE_API_TOKEN environment variable is required. " ++
  "Create a token at: https://"

/-- Suffix of the token-missing error message, after the interpolated
domain. -/
def tokenErrorSuffix : String := "/account/api"

/-- The message of the `AgilePlaceAuthError` raised when the token resolves
empty; `d` is the resolved (pre-strip) domain interpolated by `.format`. -/
def tokenErrorMessage (d : String) : String :=
  tokenErrorPrefix ++ d ++ tokenErrorSuffix

/-- `AgilePlaceAuth.__init__(domain, api_token)` with environment variables
`AGILEPLACE_DOMAIN = envDomain` and `AGILEPLACE_API_TOKEN = envToken`
(`none` = unset).  Mirrors auth.py lines 33-49: resolve both values, check
the domain, check the token (its message interpolates the resolved,
not-yet-stripped domain), then strip protocol substrings. -/
def authInit (domain api_token envDomain envToken : Option String) :
    AuthResult :=
  let d := pyOr domain envDomain
  let t := pyOr api_token envToken
  if ¬ truthy d then .authError domainErrorMessage
  else if ¬ truthy t then .authError (tokenErrorMessage (d.getD ""))
  else .ok ⟨stripProtocol (d.getD ""), t.getD ""⟩

/-- `AgilePlaceAuth.base_url` (auth.py lines 51-54):
`f"https://{self.domain}/io"`. -/
def base_url (a : Auth) : String :=
  "https://" ++ a.domain ++ "/io"

/-! ## Response classification: `src/client.py`, `_handle_response` -/

/-- One HTTP response as the executor observes it: status code, raw body
text, the outcome of `response.json()` (`none` when parsing raises), and
the `retry-after` header. -/
structure Response where
  status : Nat
  text : String
  jsonBody : Option Json
  retryAfterHeader : Option String
deriving Repr

/-- Result of `_handle_response`: a returned JSON value, a raised
`RateLimitError` (with its optional parsed `retry_after` timestamp), a
raised `AgilePlaceAPIError` (status code, message, optional parsed body), or
an uncaught JSON-decoding exception escaping from `response.json()` on a
2xx body.  Error messages are `Json` values because
`error_data.get("message", ...)` can yield any JSON value. -/
inductive HandleResult where
  | ok : Json → HandleResult
  | rateLimited : Option Int → HandleResult
  | apiError : Nat → Json → Option Json → HandleResult
  | jsonError : HandleResult
deriving Repr

/-- The generic error message
`f"API request failed with status {response.status_code}"`. -/
def genericMessage (code : Nat) : String :=
  s!"API request failed with status {code}"

/-- `_handle_response` (client.py lines 81-143).  `parse` embeds
`datetime.strptime(s, "%a, %d %b %Y %H:%M:%S %Z")`, returning `none` where
the library raises `ValueError`. -/
def handle_response (parse : String → Option Int) (r : Response) :
    HandleResult :=
  if r.status = 200 ∨ r.status = 201 ∨ r.status = 202 then
    if r.text ≠ "" then
      match r.jsonBody with
      | some j => .ok j
      | none => .jsonError
    else .ok (.obj [])
  else if r.status = 204 then .ok (.obj [])
  else if r.status = 429 then
    .rateLimited
      (match r.retryAfterHeader with
        | some s => if s ≠ "" then parse s else none
        | none => none)
  else
    match r.jsonBody with
    | some j =>
      .apiError r.status
        (match j with
          | .obj kvs => (dictGet "message" kvs).getD (.str (genericMessage r.status))
          | _ => .str (genericMessage r.status))
        (some j)
    | none =>
      .apiError r.status
        (.str (if r.text ≠ "" then r.text else genericMessage r.status))
        none

/-! ## Retry loop: `src/client.py`, `_request_with_retry` -/

/-- `wait_time` computation inside the retry loop (client.py lines
177-182): server-directed wait clamped to `[0, 60]` when a `retry_after`
timestamp was parsed, else exponential backoff `2 ** (attempt + 1)`. -/
def waitTime (retryAt : Option Int) (now : Int) (attempt : Nat) : Int :=
  match retryAt with
  | some t => max 0 (min (t - now) 60)
  | none => 2 ^ (attempt + 1)

/-- Observable outcome of one logical call through
`_request_with_retry`. -/
inductive Outcome where
  | success : Json → Outcome
  | rateLimitError : Option Int → Outcome
  | apiError : Nat → Json → Option Json → Outcome
  | jsonDecodeError : Outcome
  | noneReturned : Outcome
deriving Repr

/-- Trace of one logical call: its outcome, how many HTTP requests were
issued, and the sleep durations awaited between attempts, in order. -/
structure ExecTrace where
  outcome : Outcome
  attempts : Nat
  sleeps : List Int
deriving Repr

/-- The `for attempt in range(self.max_retries)` loop (client.py lines
168-194).  `respOf i` is the response the transport yields to the i-th
attempt, `now i` the value of `datetime.utcnow()` observed after it, and
`remaining` the number of loop iterations left (`max_retries - a`); the
current iteration is the final allowed attempt exactly when
`remaining = 1`, matching `attempt < self.max_retries - 1`. -/
def attemptLoop (parse : String → Option Int) (now : Nat → Int)
    (respOf : Nat → Response) (a remaining : Nat) : ExecTrace :=
  match remaining with
  | 0 => ⟨.noneReturned, 0, []⟩
  | r + 1 =>
    match handle_response parse (respOf a) with
    | .ok j => ⟨.success j, 1, []⟩
    | .jsonError => ⟨.jsonDecodeError, 1, []⟩
    | .apiError s m b => ⟨.apiError s m b, 1, []⟩
    | .rateLimited retryAt =>
      if r = 0 then ⟨.rateLimitError retryAt, 1, []⟩
      else
        let w := waitTime retryAt (now a) a
        let t := attemptLoop parse now respOf (a + 1) r
        ⟨t.outcome, t.attempts + 1, w :: t.sleeps⟩

/-- `_request_with_retry(method, endpoint, ...)`: run the loop from attempt
0 with `max_retries` iterations (`range` is empty for non-positive
`max_retries`, and the trailing `if last_error` is then not taken, so the
call returns `None`).  `transport m i` is the response of the i-th request
issued with HTTP method `m`. -/
def request_with_retry (parse : String → Option Int) (now : Nat → Int)
    (transport : String → Nat → Response) (method : String)
    (max_retries : Int) : ExecTrace :=
  attemptLoop parse now (transport method) 0 max_retries.toNat

/-- `AgilePlaceClient.get` (client.py line 196). -/
def get (parse : String → Option Int) (now : Nat → Int)
    (transport : String → Nat → Response) (max_retries : Int) : ExecTrace :=
  request_with_retry parse now transport "GET" max_retries

/-- `AgilePlaceClient.post` (client.py line 209). -/
def post (parse : String → Option Int) (now : Nat → Int)
    (transport : String → Nat → Response) (max_retries : Int) : ExecTrace :=
  request_with_retry parse now transport "POST" max_retries

/-- `AgilePlaceClient.patch` (client.py line 228). -/
def patch (parse : String → Option Int) (now : Nat → Int)
    (transport : String → Nat → Response) (max_retries : Int) : ExecTrace :=
  request_with_retry parse now transport "PATCH" max_retries

/-- `AgilePlaceClient.put` (client.py line 241). -/
def put (parse : String → Option Int) (now : Nat → Int)
    (transport : String → Nat → Response) (max_retries : Int) : ExecTrace :=
  request_with_retry parse now transport "PUT" max_retries

/-- `AgilePlaceClient.delete` (client.py line 254). -/
def delete (parse : String → Option Int) (now : Nat → Int)
    (transport : String → Nat → Response) (max_retries : Int) : ExecTrace :=
  request_with_retry parse now transport "DELETE" max_retries

/-! ## Connection-handle lifecycle: `_get_client`, `close`, `__aexit__` -/

/-- An `httpx.AsyncClient` instance, identified by a creation counter and
whether `aclose()` has been called on it. -/
structure Handle where
  id : Nat
  closed : Bool
deriving Repr, DecidableEq

/-- `await client.aclose()`. -/
def aclose (h : Handle) : Handle :=
  ⟨h.id, true⟩

/-- The executor's connection state: `self._client` and a counter supplying
fresh instance identities. -/
structure ClientState where
  client : Option Handle
  nextId : Nat
deriving Repr, DecidableEq

/-- `_get_client` (client.py lines 71-79): return `self._client`, creating
and storing a fresh open instance when it is `None`. -/
def get_client (s : ClientState) : Handle × ClientState :=
  match s.client with
  | some h => (h, s)
  | none => (⟨s.nextId, false⟩, ⟨some ⟨s.nextId, false⟩, s.nextId + 1⟩)

/-- `close` (client.py lines 266-270): `aclose` the client if present and
set `self._client = None`.  The second component is the handle as it was
left (closed), for observation. -/
def close (s : ClientState) : ClientState × Option Handle :=
  match s.client with
  | some h => (⟨none, s.nextId⟩, some (aclose h))
  | none => (s, none)

/-- `__aexit__` (client.py lines 66-69): `aclose` the client if present but
leave `self._client` pointing at the (now closed) instance. -/
def aexit (s : ClientState) : ClientState × Option Handle :=
  match s.client with
  | some h => (⟨some (aclose h), s.nextId⟩, some (aclose h))
  | none => (s, none)

/-! ## Helper lemmas -/

theorem mk_toList (l : List Char) : (String.mk l).toList = l := rfl

theorem toList_append (s t : String) :
    (s ++ t).toList = s.toList ++ t.toList :=
  String.data_append s t

theorem removeAllFuel_congr (pat : List Char) :
    ∀ fuel fuel' s, s.length ≤ fuel → s.length ≤ fuel' →
      removeAllFuel pat fuel s = removeAllFuel pat fuel' s := by
  intro fuel
  induction fuel with
  | zero =>
    intro fuel' s hs _
    have hnil : s = [] := List.length_eq_zero.mp (Nat.le_zero.mp hs)
    subst hnil
    cases fuel' <;> rfl
  | succ n ih =>
    intro fuel' s hs hs'
    cases s with
    | nil => cases fuel' <;> rfl
    | cons c rest =>
      cases fuel' with
      | zero => simp at hs'
      | succ m =>
        simp only [removeAllFuel]
        by_cases h : pat.isPrefixOf (c :: rest)
        · rw [if_pos h, if_pos h]
          apply ih
          · simp only [List.length_drop]
            simp only [List.length_cons] at hs
            omega
          · simp only [List.length_drop]
            simp only [List.length_cons] at hs'
            omega
        · rw [if_neg h, if_neg h]
          simp only [List.length_cons] at hs hs'
          rw [ih m rest (by omega) (by omega)]

theorem removeAllFuel_of_not_infix (pat : List Char) :
    ∀ fuel s, s.length ≤ fuel → ¬ pat <:+: s →
      removeAllFuel pat fuel s = s := by
  intro fuel
  induction fuel with
  | zero =>
    intro s hs _
    have hnil : s = [] := List.length_eq_zero.mp (Nat.le_zero.mp hs)
    subst hnil
    rfl
  | succ n ih =>
    intro s hs hninf
    cases s with
    | nil => rfl
    | cons c rest =>
      have hp : pat.isPrefixOf (c :: rest) = false := by
        cases hb : pat.isPrefixOf (c :: rest) with
        | false => rfl
        | true =>
          exact absurd (List.isPrefixOf_iff_prefix.mp hb).isInfix hninf
      simp only [removeAllFuel, hp, Bool.false_eq_true, if_false]
      simp only [List.length_cons] at hs
      rw [ih rest (by omega) (fun h => hninf (List.infix_cons h))]

theorem removeAll_of_not_infix (pat s : List Char) (h : ¬ pat <:+: s) :
    removeAll pat s = s :=
  removeAllFuel_of_not_infix pat s.length s (le_refl _) h

theorem removeAllFuel_cons_pos (pat : List Char) (c : Char)
    (rest : List Char) (fuel : Nat)
    (h : pat.isPrefixOf (c :: rest) = true) :
    removeAllFuel pat (fuel + 1) (c :: rest) =
      removeAllFuel pat fuel (rest.drop (pat.length - 1)) := by
  simp only [removeAllFuel, h, if_true]

theorem removeAllFuel_cons_neg (pat : List Char) (c : Char)
    (rest : List Char) (fuel : Nat)
    (h : pat.isPrefixOf (c :: rest) = false) :
    removeAllFuel pat (fuel + 1) (c :: rest) =
      c :: removeAllFuel pat fuel rest := by
  simp only [removeAllFuel, h, Bool.false_eq_true, if_false]

theorem removeAll_append_self (pat : List Char) (hne : pat ≠ [])
    (r : List Char) : removeAll pat (pat ++ r) = removeAll pat r := by
  cases pat with
  | nil => exact absurd rfl hne
  | cons c pt =>
    have e1 : (c :: pt) ++ r = c :: (pt ++ r) := rfl
    have hpre : (c :: pt).isPrefixOf (c :: (pt ++ r)) = true := by
      rw [List.isPrefixOf_iff_prefix, ← e1]
      exact List.prefix_append _ _
    show removeAllFuel (c :: pt) ((c :: pt) ++ r).length ((c :: pt) ++ r) =
      removeAll (c :: pt) r
    rw [e1]
    rw [show (c :: (pt ++ r)).length = (pt ++ r).length + 1 from by simp]
    rw [removeAllFuel_cons_pos _ _ _ _ hpre]
    have hdrop : (pt ++ r).drop ((c :: pt).length - 1) = r := by
      simp only [List.length_cons, Nat.add_sub_cancel]
      exact List.drop_left pt r
    rw [hdrop]
    apply removeAllFuel_congr
    · simp only [List.length_append]
      omega
    · exact le_refl _

theorem removeAll_append_of_miss (pat : List Char) :
    ∀ pre r : List Char,
      (∀ p, p < pre.length → pat.isPrefixOf (pre.drop p ++ r) = false) →
      removeAll pat (pre ++ r) = pre ++ removeAll pat r := by
  intro pre
  induction pre with
  | nil => intro r _; simp
  | cons c pre' ih =>
    intro r h
    have h0 : pat.isPrefixOf (c :: (pre' ++ r)) = false := by
      have := h 0 (by simp)
      simpa using this
    have e1 : (c :: pre') ++ r = c :: (pre' ++ r) := rfl
    show removeAllFuel pat ((c :: pre') ++ r).length ((c :: pre') ++ r) =
      (c :: pre') ++ removeAll pat r
    rw [e1]
    rw [show (c :: (pre' ++ r)).length = (pre' ++ r).length + 1 from by simp]
    rw [removeAllFuel_cons_neg _ _ _ _ h0]
    have hrec : removeAllFuel pat (pre' ++ r).length (pre' ++ r) =
        pre' ++ removeAll pat r :=
      ih r (fun p hp => by
        have := h (p + 1) (by simpa using Nat.succ_lt_succ hp)
        simpa using this)
    rw [hrec, List.cons_append]

theorem tokenErrorMessage_ne_domainErrorMessage (d : String) :
    tokenErrorMessage d ≠ domainErrorMessage := by
  intro h
  have h1 := congrArg (fun s => s.data.getD 11 ' ') h
  simp only [tokenErrorMessage] at h1
  rw [String.data_append, String.data_append] at h1
  rw [List.getD_append _ _ _ _ (by
    rw [List.length_append]
    have hlen : 11 < tokenErrorPrefix.data.length := by decide
    omega)] at h1
  rw [List.getD_append _ _ _ _ (by decide)] at h1
  exact absurd h1 (by decide)

theorem handle_response_success (parse : String → Option Int) (r : Response)
    (j : Json) (hs : r.status = 200 ∨ r.status = 201 ∨ r.status = 202)
    (ht : r.text ≠ "") (hj : r.jsonBody = some j) :
    handle_response parse r = .ok j := by
  unfold handle_response
  rw [if_pos hs, if_pos ht, hj]

theorem handle_response_empty_text (parse : String → Option Int)
    (r : Response) (hs : r.status = 200 ∨ r.status = 201 ∨ r.status = 202)
    (ht : r.text = "") : handle_response parse r = .ok (.obj []) := by
  unfold handle_response
  rw [if_pos hs, if_neg (by simp [ht])]

theorem handle_response_204 (parse : String → Option Int) (r : Response)
    (hs : r.status = 204) : handle_response parse r = .ok (.obj []) := by
  unfold handle_response
  rw [if_neg (by omega), if_pos hs]

theorem handle_response_json_error (parse : String → Option Int)
    (r : Response) (hs : r.status = 200 ∨ r.status = 201 ∨ r.status = 202)
    (ht : r.text ≠ "") (hj : r.jsonBody = none) :
    handle_response parse r = .jsonError := by
  unfold handle_response
  rw [if_pos hs, if_pos ht, hj]

theorem handle_response_429 (parse : String → Option Int) (r : Response)
    (hs : r.status = 429) :
    handle_response parse r =
      .rateLimited
        (match r.retryAfterHeader with
          | some s => if s ≠ "" then parse s else none
          | none => none) := by
  unfold handle_response
  rw [if_neg (by omega), if_neg (by omega), if_pos hs]

theorem handle_response_failure (parse : String → Option Int) (r : Response)
    (h1 : ¬ (r.status = 200 ∨ r.status = 201 ∨ r.status = 202))
    (h2 : r.status ≠ 204) (h3 : r.status ≠ 429) :
    handle_response parse r =
      match r.jsonBody with
      | some j =>
        .apiError r.status
          (match j with
            | .obj kvs =>
              (dictGet "message" kvs).getD (.str (genericMessage r.status))
            | _ => .str (genericMessage r.status))
          (some j)
      | none =>
        .apiError r.status
          (.str (if r.text ≠ "" then r.text else genericMessage r.status))
          none := by
  unfold handle_response
  rw [if_neg h1, if_neg h2, if_neg h3]

theorem attemptLoop_all429 (parse : String → Option Int) (now : Nat → Int)
    (respOf : Nat → Response) (f : Nat → Option Int)
    (h : ∀ i, handle_response parse (respOf i) = .rateLimited (f i)) :
    ∀ rem a,
      (attemptLoop parse now respOf a (rem + 1)).outcome =
        .rateLimitError (f (a + rem)) ∧
      (attemptLoop parse now respOf a (rem + 1)).attempts = rem + 1 ∧
      (attemptLoop parse now respOf a (rem + 1)).sleeps.length = rem := by
  intro rem
  induction rem with
  | zero =>
    intro a
    simp [attemptLoop, h a]
  | succ n ih =>
    intro a
    have hn : ¬ (n + 1 = 0) := by omega
    simp only [attemptLoop, h a, hn, if_false]
    obtain ⟨o, att, sl⟩ := ih (a + 1)
    refine ⟨?_, ?_, ?_⟩
    · rw [show a + (n + 1) = (a + 1) + n from by omega] at *
      exact o
    · simpa using att
    · simpa using sl

theorem attemptLoop_success_at (parse : String → Option Int)
    (now : Nat → Int) (respOf : Nat → Response) (f : Nat → Option Int)
    (k : Nat) (j : Json)
    (h429 : ∀ i, i < k → handle_response parse (respOf i) = .rateLimited (f i))
    (hok : handle_response parse (respOf k) = .ok j) :
    ∀ rem a, a ≤ k → k < a + rem →
      (attemptLoop parse now respOf a rem).outcome = .success j ∧
      (attemptLoop parse now respOf a rem).attempts = k - a + 1 ∧
      (attemptLoop parse now respOf a rem).sleeps.length = k - a := by
  intro rem
  induction rem with
  | zero =>
    intro a hak hka
    omega
  | succ n ih =>
    intro a hak hka
    by_cases heq : a = k
    · subst heq
      simp [attemptLoop, hok]
    · have hlt : a < k := lt_of_le_of_ne hak heq
      have hn : ¬ (n = 0) := by omega
      simp only [attemptLoop, h429 a hlt, hn, if_false]
      obtain ⟨o, att, sl⟩ := ih (a + 1) (by omega) (by omega)
      refine ⟨by simpa using o, ?_, ?_⟩
      · simp only [List.length_cons] at *
        rw [att]
        omega
      · simp only [List.length_cons]
        rw [sl]
        omega

/-! ## Claim theorems -/

/-- C5: credential resolution with an empty or absent resolved domain raises
`AgilePlaceAuthError` with the domain message, for arbitrary token inputs
(so before any token check is evaluated); with a present resolved domain
but an empty or absent resolved token it raises an error whose message
embeds the resolved domain and is distinct from the domain message. -/
theorem C5_credential_errors
    (dom1 tok1 envD1 envT1 : Option String)
    (hd1 : truthy (pyOr dom1 envD1) = false)
    (dom2 tok2 envD2 envT2 : Option String) (d : String)
    (hd2 : pyOr dom2 envD2 = some d) (hdne : d ≠ "")
    (ht2 : truthy (pyOr tok2 envT2) = false) :
    authInit dom1 tok1 envD1 envT1 = .authError domainErrorMessage ∧
    authInit dom2 tok2 envD2 envT2 = .authError (tokenErrorMessage d) ∧
    tokenErrorMessage d = tokenErrorPrefix ++ d ++ tokenErrorSuffix ∧
    tokenErrorMessage d ≠ domainErrorMessage := by
  refine ⟨?_, ?_, rfl, tokenErrorMessage_ne_domainErrorMessage d⟩
  · simp [authInit, hd1]
  · have hdt : truthy (pyOr dom2 envD2) = true := by
      rw [hd2]
      simp [truthy, hdne]
    simp only [authInit]
    rw [if_neg (by simp [hdt]), if_pos (by simp [ht2]), hd2]
    rfl

/-- Witness for C5 at concrete inputs. -/
theorem C5_credential_errors_witness :
    authInit none none none (some "tok") = .authError domainErrorMessage ∧
    authInit (some "test.leankit.com") none none none =
      .authError (tokenErrorMessage "test.leankit.com") ∧
    tokenErrorMessage "test.leankit.com" =
      tokenErrorPrefix ++ "test.leankit.com" ++ tokenErrorSuffix ∧
    tokenErrorMessage "test.leankit.com" ≠ domainErrorMessage :=
  C5_credential_errors none none none (some "tok") rfl
    (some "test.leankit.com") none none none "test.leankit.com" rfl
    (by decide) rfl

/-- C7: for every accepted (domain, token) pair, `base_url` is exactly
`"https://" ++ stripped domain ++ "/io"`, where the stripped domain is the
resolved domain after protocol stripping. -/
theorem C7_base_url (dom tok envD envT : Option String) (a : Auth)
    (h : authInit dom tok envD envT = .ok a) :
    base_url a =
      "https://" ++ stripProtocol ((pyOr dom envD).getD "") ++ "/io" := by
  simp only [authInit] at h
  by_cases h1 : truthy (pyOr dom envD) = true
  · by_cases h2 : truthy (pyOr tok envT) = true
    · rw [if_neg (fun hc => hc h1), if_neg (fun hc => hc h2)] at h
      cases h
      rfl
    · rw [if_neg (fun hc => hc h1), if_pos h2] at h
      exact AuthResult.noConfusion h
  · rw [if_pos h1] at h
    exact AuthResult.noConfusion h

/-- Witness for C7 at a concrete (domain, token) pair. -/
theorem C7_base_url_witness :
    base_url ⟨"test.leankit.com", "tok"⟩ =
      "https://" ++
        stripProtocol ((pyOr (some "https://test.leankit.com") none).getD "")
        ++ "/io" :=
  C7_base_url (some "https://test.leankit.com") (some "tok") none none
    ⟨"test.leankit.com", "tok"⟩ rfl

/-- C8: with a non-positive `max_retries`, every verb call performs no HTTP
request and returns `None` (neither a parsed result nor a raised error). -/
theorem C8_nonpositive_retries (parse : String → Option Int)
    (now : Nat → Int) (transport : String → Nat → Response) (m : Int)
    (hm : m ≤ 0) :
    get parse now transport m = ⟨.noneReturned, 0, []⟩ ∧
    post parse now transport m = ⟨.noneReturned, 0, []⟩ ∧
    patch parse now transport m = ⟨.noneReturned, 0, []⟩ ∧
    put parse now transport m = ⟨.noneReturned, 0, []⟩ ∧
    delete parse now transport m = ⟨.noneReturned, 0, []⟩ := by
  have h0 : m.toNat = 0 := Int.toNat_of_nonpos hm
  refine ⟨?_, ?_, ?_, ?_, ?_⟩ <;>
    simp [get, post, patch, put, delete, request_with_retry, h0, attemptLoop]

/-- Witness for C8 at `max_retries = 0`. -/
theorem C8_nonpositive_retries_witness :
    get (fun _ => none) (fun _ => 0) (fun _ _ => ⟨200, "", none, none⟩) 0 =
      ⟨.noneReturned, 0, []⟩ ∧
    post (fun _ => none) (fun _ => 0) (fun _ _ => ⟨200, "", none, none⟩) 0 =
      ⟨.noneReturned, 0, []⟩ ∧
    patch (fun _ => none) (fun _ => 0) (fun _ _ => ⟨200, "", none, none⟩) 0 =
      ⟨.noneReturned, 0, []⟩ ∧
    put (fun _ => none) (fun _ => 0) (fun _ _ => ⟨200, "", none, none⟩) 0 =
      ⟨.noneReturned, 0, []⟩ ∧
    delete (fun _ => none) (fun _ => 0) (fun _ _ => ⟨200, "", none, none⟩) 0 =
      ⟨.noneReturned, 0, []⟩ :=
  C8_nonpositive_retries (fun _ => none) (fun _ => 0)
    (fun _ _ => ⟨200, "", none, none⟩) 0 (by decide)

/-- C10: `close` closes the handle and resets the slot to `None`, so the
next `_get_client` creates a fresh open instance; `__aexit__` closes the
handle but leaves the slot set, so the next `_get_client` returns the same,
already closed instance. -/
theorem C10_close_vs_aexit (s : ClientState) (h : Handle)
    (hc : s.client = some h) (hid : h.id < s.nextId) :
    (close s).1.client = none ∧
    (close s).2 = some ⟨h.id, true⟩ ∧
    (get_client (close s).1).1 = ⟨s.nextId, false⟩ ∧
    (get_client (close s).1).1.id ≠ h.id ∧
    (get_client (close s).1).2.client = some ⟨s.nextId, false⟩ ∧
    (aexit s).1.client = some ⟨h.id, true⟩ ∧
    (get_client (aexit s).1).1 = ⟨h.id, true⟩ ∧
    (get_client (aexit s).1).2 = (aexit s).1 := by
  simp [close, aexit, get_client, aclose, hc]
  omega

/-- Witness for C10 at a concrete client state. -/
theorem C10_close_vs_aexit_witness :
    (close ⟨some ⟨0, false⟩, 1⟩).1.client = none ∧
    (close ⟨some ⟨0, false⟩, 1⟩).2 = some ⟨0, true⟩ ∧
    (get_client (close ⟨some ⟨0, false⟩, 1⟩).1).1 = ⟨1, false⟩ ∧
    (get_client (close ⟨some ⟨0, false⟩, 1⟩).1).1.id ≠ 0 ∧
    (get_client (close ⟨some ⟨0, false⟩, 1⟩).1).2.client = some ⟨1, false⟩ ∧
    (aexit ⟨some ⟨0, false⟩, 1⟩).1.client = some ⟨0, true⟩ ∧
    (get_client (aexit ⟨some ⟨0, false⟩, 1⟩).1).1 = ⟨0, true⟩ ∧
    (get_client (aexit ⟨some ⟨0, false⟩, 1⟩).1).2 =
      (aexit ⟨some ⟨0, false⟩, 1⟩).1 :=
  C10_close_vs_aexit ⟨some ⟨0, false⟩, 1⟩ ⟨0, false⟩ rfl (by decide)

/-- C6: a first-attempt response with status 200/201/202 and a non-empty,
JSON-parsable body makes the call return the parsed body at once; such a
status with an empty body, or status 204 with any body, makes it return the
empty mapping at once.  In each case exactly one request is issued and no
sleep occurs. -/
theorem C6_success_and_empty (parse : String → Option Int) (now : Nat → Int)
    (t1 t2 t3 : String → Nat → Response) (meth : String) (m : Int)
    (hm : 0 < m) (r1 r2 r3 : Response) (j : Json)
    (e1 : t1 meth 0 = r1)
    (s1 : r1.status = 200 ∨ r1.status = 201 ∨ r1.status = 202)
    (b1 : r1.text ≠ "") (j1 : r1.jsonBody = some j)
    (e2 : t2 meth 0 = r2)
    (s2 : r2.status = 200 ∨ r2.status = 201 ∨ r2.status = 202)
    (b2 : r2.text = "")
    (e3 : t3 meth 0 = r3) (s3 : r3.status = 204) :
    request_with_retry parse now t1 meth m = ⟨.success j, 1, []⟩ ∧
    request_with_retry parse now t2 meth m = ⟨.success (.obj []), 1, []⟩ ∧
    request_with_retry parse now t3 meth m = ⟨.success (.obj []), 1, []⟩ := by
  obtain ⟨k, hk⟩ : ∃ k, m.toNat = k + 1 := ⟨m.toNat - 1, by omega⟩
  unfold request_with_retry
  rw [hk]
  refine ⟨?_, ?_, ?_⟩
  · simp [attemptLoop, e1, handle_response_success parse r1 j s1 b1 j1]
  · simp [attemptLoop, e2, handle_response_empty_text parse r2 s2 b2]
  · simp [attemptLoop, e3, handle_response_204 parse r3 s3]

/-- Witness for C6 at concrete transports and `max_retries = 3`. -/
theorem C6_success_and_empty_witness :
    request_with_retry (fun _ => none) (fun _ => 0)
      (fun _ _ => ⟨200, "x", some (.obj [("data", .str "test")]), none⟩)
      "GET" 3 = ⟨.success (.obj [("data", .str "test")]), 1, []⟩ ∧
    request_with_retry (fun _ => none) (fun _ => 0)
      (fun _ _ => ⟨201, "", none, none⟩) "GET" 3 =
      ⟨.success (.obj []), 1, []⟩ ∧
    request_with_retry (fun _ => none) (fun _ => 0)
      (fun _ _ => ⟨204, "ignored body", some (.str "ignored"), none⟩)
      "GET" 3 = ⟨.success (.obj []), 1, []⟩ :=
  C6_success_and_empty (fun _ => none) (fun _ => 0)
    (fun _ _ => ⟨200, "x", some (.obj [("data", .str "test")]), none⟩)
    (fun _ _ => ⟨201, "", none, none⟩)
    (fun _ _ => ⟨204, "ignored body", some (.str "ignored"), none⟩)
    "GET" 3 (by decide)
    ⟨200, "x", some (.obj [("data", .str "test")]), none⟩
    ⟨201, "", none, none⟩
    ⟨204, "ignored body", some (.str "ignored"), none⟩
    (.obj [("data", .str "test")])
    rfl (Or.inl rfl) (by decide) rfl
    rfl (Or.inr (Or.inl rfl)) rfl
    rfl rfl

/-- C9: a first-attempt response with success status, non-empty body and a
failing JSON parse makes the call end with the JSON-decoding exception
itself (a distinct outcome from `AgilePlaceAPIError` and `RateLimitError`),
after exactly one request and with no retry or sleep. -/
theorem C9_json_decode_error (parse : String → Option Int) (now : Nat → Int)
    (t : String → Nat → Response) (meth : String) (m : Int) (hm : 0 < m)
    (r : Response) (e : t meth 0 = r)
    (hs : r.status = 200 ∨ r.status = 201 ∨ r.status = 202)
    (ht : r.text ≠ "") (hj : r.jsonBody = none) :
    request_with_retry parse now t meth m = ⟨.jsonDecodeError, 1, []⟩ := by
  obtain ⟨k, hk⟩ : ∃ k, m.toNat = k + 1 := ⟨m.toNat - 1, by omega⟩
  unfold request_with_retry
  rw [hk]
  simp [attemptLoop, e, handle_response_json_error parse r hs ht hj]

/-- Witness for C9 at a concrete non-JSON 200 response. -/
theorem C9_json_decode_error_witness :
    request_with_retry (fun _ => none) (fun _ => 0)
      (fun _ _ => ⟨200, "not json", none, none⟩) "GET" 3 =
      ⟨.jsonDecodeError, 1, []⟩ :=
  C9_json_decode_error (fun _ => none) (fun _ => 0)
    (fun _ _ => ⟨200, "not json", none, none⟩) "GET" 3 (by decide)
    ⟨200, "not json", none, none⟩ rfl (Or.inl rfl) (by decide) rfl

/-- C1: when every attempt is classified rate-limited, the call issues
exactly `max_retries` requests, ends with `RateLimitError` (carrying the
final attempt's retry-after), and sleeps only before each of the
`max_retries - 1` retries — not before the final raise; when the attempt at
0-indexed position `k < max_retries` succeeds after rate-limited attempts,
the call returns that attempt's parsed body after exactly `k + 1`
requests. -/
theorem C1_retry_exhaustion_and_success (parse : String → Option Int)
    (now : Nat → Int) (t1 t2 : String → Nat → Response) (meth : String)
    (m : Int) (hm : 0 < m) (f : Nat → Option Int)
    (h429 : ∀ i, handle_response parse (t1 meth i) = .rateLimited (f i))
    (k : Nat) (hk : (k : Int) < m) (j : Json)
    (h429b : ∀ i, i < k →
      handle_response parse (t2 meth i) = .rateLimited (f i))
    (hok : handle_response parse (t2 meth k) = .ok j) :
    (request_with_retry parse now t1 meth m).outcome =
      .rateLimitError (f (m.toNat - 1)) ∧
    (request_with_retry parse now t1 meth m).attempts = m.toNat ∧
    (request_with_retry parse now t1 meth m).sleeps.length = m.toNat - 1 ∧
    (request_with_retry parse now t2 meth m).outcome = .success j ∧
    (request_with_retry parse now t2 meth m).attempts = k + 1 ∧
    (request_with_retry parse now t2 meth m).sleeps.length = k := by
  obtain ⟨n, hn⟩ : ∃ n, m.toNat = n + 1 := ⟨m.toNat - 1, by omega⟩
  unfold request_with_retry
  rw [hn]
  obtain ⟨o1, a1, l1⟩ := attemptLoop_all429 parse now (t1 meth) f h429 n 0
  obtain ⟨o2, a2, l2⟩ :=
    attemptLoop_success_at parse now (t2 meth) f k j h429b hok (n + 1) 0
      (by omega) (by omega)
  exact ⟨by simpa using o1, a1, by simpa using l1,
    o2, by simpa using a2, by simpa using l2⟩

/-- Witness for C1: always-429 transport with `max_retries = 3`, and a
transport that is rate-limited once then succeeds. -/
theorem C1_retry_exhaustion_and_success_witness :
    (request_with_retry (fun _ => none) (fun _ => 0)
        (fun _ _ => ⟨429, "", none, none⟩) "GET" 3).outcome =
      .rateLimitError none ∧
    (request_with_retry (fun _ => none) (fun _ => 0)
        (fun _ _ => ⟨429, "", none, none⟩) "GET" 3).attempts = 3 ∧
    (request_with_retry (fun _ => none) (fun _ => 0)
        (fun _ _ => ⟨429, "", none, none⟩) "GET" 3).sleeps.length = 2 ∧
    (request_with_retry (fun _ => none) (fun _ => 0)
        (fun _ i => if i = 0 then ⟨429, "", none, none⟩
          else ⟨200, "x", some (.str "ok"), none⟩) "GET" 3).outcome =
      .success (.str "ok") ∧
    (request_with_retry (fun _ => none) (fun _ => 0)
        (fun _ i => if i = 0 then ⟨429, "", none, none⟩
          else ⟨200, "x", some (.str "ok"), none⟩) "GET" 3).attempts = 2 ∧
    (request_with_retry (fun _ => none) (fun _ => 0)
        (fun _ i => if i = 0 then ⟨429, "", none, none⟩
          else ⟨200, "x", some (.str "ok"), none⟩) "GET" 3).sleeps.length =
      1 :=
  C1_retry_exhaustion_and_success (fun _ => none) (fun _ => 0)
    (fun _ _ => ⟨429, "", none, none⟩)
    (fun _ i => if i = 0 then ⟨429, "", none, none⟩
      else ⟨200, "x", some (.str "ok"), none⟩)
    "GET" 3 (by decide) (fun _ => none) (fun _ => rfl)
    1 (by decide) (.str "ok")
    (fun i hi => by
      have h0 : i = 0 := by omega
      subst h0
      rfl)
    rfl

/-- C3: a 429 response is classified rate-limited with `retry_at` taken
from the `Retry-After` header exactly when the header is present, non-empty
and parses (a parse failure or empty/absent header yields `none`); a
permitted retry sleeps `clamp(retry_at - now, 0, 60)` when a `retry_at` was
parsed, else `2 ^ (attempt + 1)` seconds (2, 4, 8 for attempts 0, 1, 2). -/
theorem C3_retry_after_and_backoff (parse : String → Option Int)
    (now : Nat → Int) (r1 r2 r3 : Response) (s : String) (tm n0 : Int)
    (a : Nat)
    (h1 : r1.status = 429) (hh1 : r1.retryAfterHeader = none)
    (h2 : r2.status = 429) (hh2 : r2.retryAfterHeader = some s)
    (hs : s ≠ "")
    (h3 : r3.status = 429) (hh3 : r3.retryAfterHeader = some "")
    (t : String → Nat → Response) (meth : String) (m : Int) (hm : 2 ≤ m)
    (e0 : t meth 0 = r2) (rOk : Response) (j : Json) (e1 : t meth 1 = rOk)
    (hok : handle_response parse rOk = .ok j) :
    handle_response parse r1 = .rateLimited none ∧
    handle_response parse r2 = .rateLimited (parse s) ∧
    handle_response parse r3 = .rateLimited none ∧
    waitTime (some tm) n0 a = max 0 (min (tm - n0) 60) ∧
    waitTime none n0 0 = 2 ∧ waitTime none n0 1 = 4 ∧
    waitTime none n0 2 = 8 ∧ waitTime none n0 a = 2 ^ (a + 1) ∧
    request_with_retry parse now t meth m =
      ⟨.success j, 2, [waitTime (parse s) (now 0) 0]⟩ := by
  have c1 : handle_response parse r1 = .rateLimited none := by
    rw [handle_response_429 parse r1 h1, hh1]
  have c2 : handle_response parse r2 = .rateLimited (parse s) := by
    rw [handle_response_429 parse r2 h2, hh2]
    simp [hs]
  have c3 : handle_response parse r3 = .rateLimited none := by
    rw [handle_response_429 parse r3 h3, hh3]
    simp
  refine ⟨c1, c2, c3, rfl, by norm_num [waitTime], by norm_num [waitTime],
    by norm_num [waitTime], rfl, ?_⟩
  obtain ⟨n, hn⟩ : ∃ n, m.toNat = n + 2 := ⟨m.toNat - 2, by omega⟩
  unfold request_with_retry
  rw [hn]
  have hr0 : handle_response parse (t meth 0) = .rateLimited (parse s) := by
    rw [e0]
    exact c2
  have hr1 : handle_response parse (t meth 1) = .ok j := by
    rw [e1]
    exact hok
  simp [attemptLoop, hr0, hr1]

/-- Witness for C3: a header that parses to timestamp 100, observed at time
70, yields a 30-second sleep before the successful retry. -/
theorem C3_retry_after_and_backoff_witness :
    handle_response
        (fun x => if x = "Fri, 01 Jan 2024 12:00:00 GMT" then some 100
          else none)
        ⟨429, "", none, none⟩ = .rateLimited none ∧
    handle_response
        (fun x => if x = "Fri, 01 Jan 2024 12:00:00 GMT" then some 100
          else none)
        ⟨429, "", none, some "Fri, 01 Jan 2024 12:00:00 GMT"⟩ =
      .rateLimited (some 100) ∧
    handle_response
        (fun x => if x = "Fri, 01 Jan 2024 12:00:00 GMT" then some 100
          else none)
        ⟨429, "", none, some ""⟩ = .rateLimited none ∧
    waitTime (some 100) 50 5 = max 0 (min (100 - 50) 60) ∧
    waitTime none 50 0 = 2 ∧ waitTime none 50 1 = 4 ∧
    waitTime none 50 2 = 8 ∧ waitTime none 50 5 = 2 ^ (5 + 1) ∧
    request_with_retry
        (fun x => if x = "Fri, 01 Jan 2024 12:00:00 GMT" then some 100
          else none)
        (fun _ => 70)
        (fun _ i =>
          if i = 0 then ⟨429, "", none, some "Fri, 01 Jan 2024 12:00:00 GMT"⟩
          else ⟨200, "x", some (.bool true), none⟩)
        "GET" 3 = ⟨.success (.bool true), 2, [30]⟩ :=
  C3_retry_after_and_backoff
    (fun x => if x = "Fri, 01 Jan 2024 12:00:00 GMT" then some 100 else none)
    (fun _ => 70)
    ⟨429, "", none, none⟩
    ⟨429, "", none, some "Fri, 01 Jan 2024 12:00:00 GMT"⟩
    ⟨429, "", none, some ""⟩
    "Fri, 01 Jan 2024 12:00:00 GMT" 100 50 5
    rfl rfl rfl rfl (by decide) rfl rfl
    (fun _ i =>
      if i = 0 then ⟨429, "", none, some "Fri, 01 Jan 2024 12:00:00 GMT"⟩
      else ⟨200, "x", some (.bool true), none⟩)
    "GET" 3 (by decide) rfl
    ⟨200, "x", some (.bool true), none⟩ (.bool true) rfl rfl

theorem stripProtocol_toList (d : String) :
    (stripProtocol d).toList =
      removeAll "http://".toList (removeAll "https://".toList d.toList) :=
  rfl

/-- C2 counterexample: on the domain `"a.https://b"`, whose only scheme
substring occurs in the middle, `str.replace`-based stripping removes it
(yielding `"a.b"`), while the claimed exact-leading-prefix-only stripping
would leave the domain intact. -/
theorem C2_counterexample :
    stripProtocol "a.https://b" = "a.b" ∧
    stripProtocol "a.https://b" ≠ stripProtocolClaimed "a.https://b" :=
  ⟨rfl, by decide⟩

/-- C2 (amended): credential resolution removes every non-overlapping
occurrence of `https://` (left to right), then every non-overlapping
occurrence of `http://`, case-sensitively, anywhere in the domain — not
only at the start and not only once.  In particular a domain containing
neither substring (including differently-cased variants) is left intact,
and a domain whose only such occurrence is a single leading prefix loses
exactly that prefix, as the original claim describes. -/
theorem C2_strip_all_occurrences
    (d1 t1 : String) (hd1 : d1 ≠ "") (ht1 : t1 ≠ "")
    (d2 : String)
    (h2a : ¬ "https://".toList <:+: d2.toList)
    (h2b : ¬ "http://".toList <:+: d2.toList)
    (r3 : String)
    (h3a : ¬ "https://".toList <:+: r3.toList)
    (h3b : ¬ "http://".toList <:+: r3.toList)
    (r4 : String)
    (h4a : ¬ "https://".toList <:+: r4.toList)
    (h4b : ¬ "http://".toList <:+: r4.toList) :
    authInit (some d1) (some t1) none none = .ok ⟨stripProtocol d1, t1⟩ ∧
    stripProtocol d2 = d2 ∧
    stripProtocol ("https://" ++ r3) = r3 ∧
    stripProtocol ("http://" ++ r4) = r4 := by
  refine ⟨?_, ?_, ?_, ?_⟩
  · have hp : pyOr (some d1) none = some d1 := by simp [pyOr, truthy, hd1]
    have hq : pyOr (some t1) none = some t1 := by simp [pyOr, truthy, ht1]
    simp only [authInit, hp, hq]
    rw [if_neg (by simp [truthy, hd1]), if_neg (by simp [truthy, ht1])]
    rfl
  · refine String.toList_inj.mp ?_
    rw [stripProtocol_toList, removeAll_of_not_infix _ _ h2a,
      removeAll_of_not_infix _ _ h2b]
  · refine String.toList_inj.mp ?_
    rw [stripProtocol_toList, toList_append,
      removeAll_append_self _ (by decide) _,
      removeAll_of_not_infix _ _ h3a, removeAll_of_not_infix _ _ h3b]
  · refine String.toList_inj.mp ?_
    rw [stripProtocol_toList, toList_append,
      removeAll_append_of_miss _ _ _ (by
        intro p hp
        have e7 : ("http://".toList).length = 7 := rfl
        rw [e7] at hp
        interval_cases p <;> rfl),
      removeAll_of_not_infix _ _ h4a,
      removeAll_append_self _ (by decide) _,
      removeAll_of_not_infix _ _ h4b]

/-- Witness for C2 (amended) on concrete domains, including an
uppercase-scheme domain left intact (case-sensitivity). -/
theorem C2_strip_all_occurrences_witness :
    authInit (some "a.https://b") (some "tok") none none =
      .ok ⟨stripProtocol "a.https://b", "tok"⟩ ∧
    stripProtocol "HTTPS://x.com" = "HTTPS://x.com" ∧
    stripProtocol ("https://" ++ "test.leankit.com") = "test.leankit.com" ∧
    stripProtocol ("http://" ++ "example.com") = "example.com" :=
  C2_strip_all_occurrences "a.https://b" "tok" (by decide) (by decide)
    "HTTPS://x.com" (by decide) (by decide)
    "test.leankit.com" (by decide) (by decide)
    "example.com" (by decide) (by decide)

/-- C4 counterexample: a 404 response with an empty, unparsable body is
given the generic message `"API request failed with status 404"` (because
`response.text or error_message` falls back on empty text), not the raw
response text `""` as the claim states for every failed parse. -/
theorem C4_counterexample :
    handle_response (fun _ => none) ⟨404, "", none, none⟩ =
      .apiError 404 (.str (genericMessage 404)) none ∧
    genericMessage 404 ≠ "" :=
  ⟨rfl, by decide⟩

/-- C4 (amended): a response whose status is outside
{200, 201, 202, 204, 429} raises `AgilePlaceAPIError` immediately with no
retry, carrying the status, the parsed body when one was obtained, and a
message chosen as: the body's `message` field if the body parses as a JSON
mapping containing one; the generic message if the body parses as JSON
without such a field (a mapping without `message`, or a non-mapping); the
raw response text if JSON parsing fails and the text is non-empty; and the
generic message if parsing fails and the text is empty. -/
theorem C4_error_classification (parse : String → Option Int)
    (now : Nat → Int)
    (r1 : Response) (kvs : List (String × Json)) (v : Json)
    (n1 : ¬ (r1.status = 200 ∨ r1.status = 201 ∨ r1.status = 202))
    (n1b : r1.status ≠ 204) (n1c : r1.status ≠ 429)
    (hb1 : r1.jsonBody = some (.obj kvs))
    (hm1 : dictGet "message" kvs = some v)
    (r2 : Response) (kvs2 : List (String × Json))
    (n2 : ¬ (r2.status = 200 ∨ r2.status = 201 ∨ r2.status = 202))
    (n2b : r2.status ≠ 204) (n2c : r2.status ≠ 429)
    (hb2 : r2.jsonBody = some (.obj kvs2))
    (hm2 : dictGet "message" kvs2 = none)
    (r5 : Response) (l5 : List Json)
    (n5 : ¬ (r5.status = 200 ∨ r5.status = 201 ∨ r5.status = 202))
    (n5b : r5.status ≠ 204) (n5c : r5.status ≠ 429)
    (hb5 : r5.jsonBody = some (.arr l5))
    (r3 : Response)
    (n3 : ¬ (r3.status = 200 ∨ r3.status = 201 ∨ r3.status = 202))
    (n3b : r3.status ≠ 204) (n3c : r3.status ≠ 429)
    (hb3 : r3.jsonBody = none) (ht3 : r3.text ≠ "")
    (r4 : Response)
    (n4 : ¬ (r4.status = 200 ∨ r4.status = 201 ∨ r4.status = 202))
    (n4b : r4.status ≠ 204) (n4c : r4.status ≠ 429)
    (hb4 : r4.jsonBody = none) (ht4 : r4.text = "")
    (t : String → Nat → Response) (meth : String) (m : Int) (hm : 0 < m)
    (e : t meth 0 = r3) :
    handle_response parse r1 = .apiError r1.status v (some (.obj kvs)) ∧
    handle_response parse r2 =
      .apiError r2.status (.str (genericMessage r2.status))
        (some (.obj kvs2)) ∧
    handle_response parse r5 =
      .apiError r5.status (.str (genericMessage r5.status))
        (some (.arr l5)) ∧
    handle_response parse r3 = .apiError r3.status (.str r3.text) none ∧
    handle_response parse r4 =
      .apiError r4.status (.str (genericMessage r4.status)) none ∧
    request_with_retry parse now t meth m =
      ⟨.apiError r3.status (.str r3.text) none, 1, []⟩ := by
  have c3 : handle_response parse r3 =
      .apiError r3.status (.str r3.text) none := by
    rw [handle_response_failure parse r3 n3 n3b n3c, hb3]
    simp [ht3]
  refine ⟨?_, ?_, ?_, c3, ?_, ?_⟩
  · rw [handle_response_failure parse r1 n1 n1b n1c, hb1]
    simp [hm1]
  · rw [handle_response_failure parse r2 n2 n2b n2c, hb2]
    simp [hm2]
  · rw [handle_response_failure parse r5 n5 n5b n5c, hb5]
  · rw [handle_response_failure parse r4 n4 n4b n4c, hb4]
    simp [ht4]
  · obtain ⟨k, hk⟩ : ∃ k, m.toNat = k + 1 := ⟨m.toNat - 1, by omega⟩
    unfold request_with_retry
    rw [hk]
    simp [attemptLoop, e, c3]

/-- Witness for C4 (amended) on five concrete error responses and an
immediate 404 call. -/
theorem C4_error_classification_witness :
    handle_response (fun _ => none)
        ⟨500, "x", some (.obj [("message", .str "boom")]), none⟩ =
      .apiError 500 (.str "boom")
        (some (.obj [("message", .str "boom")])) ∧
    handle_response (fun _ => none)
        ⟨500, "x", some (.obj [("error", .str "e")]), none⟩ =
      .apiError 500 (.str (genericMessage 500))
        (some (.obj [("error", .str "e")])) ∧
    handle_response (fun _ => none) ⟨502, "x", some (.arr []), none⟩ =
      .apiError 502 (.str (genericMessage 502)) (some (.arr [])) ∧
    handle_response (fun _ => none) ⟨404, "plain text", none, none⟩ =
      .apiError 404 (.str "plain text") none ∧
    handle_response (fun _ => none) ⟨404, "", none, none⟩ =
      .apiError 404 (.str (genericMessage 404)) none ∧
    request_with_retry (fun _ => none) (fun _ => 0)
        (fun _ _ => ⟨404, "plain text", none, none⟩) "GET" 3 =
      ⟨.apiError 404 (.str "plain text") none, 1, []⟩ :=
  C4_error_classification (fun _ => none) (fun _ => 0)
    ⟨500, "x", some (.obj [("message", .str "boom")]), none⟩
    [("message", .str "boom")] (.str "boom")
    (by decide) (by decide) (by decide) rfl rfl
    ⟨500, "x", some (.obj [("error", .str "e")]), none⟩
    [("error", .str "e")]
    (by decide) (by decide) (by decide) rfl rfl
    ⟨502, "x", some (.arr []), none⟩ []
    (by decide) (by decide) (by decide) rfl
    ⟨404, "plain text", none, none⟩
    (by decide) (by decide) (by decide) rfl (by decide)
    ⟨404, "", none, none⟩
    (by decide) (by decide) (by decide) rfl rfl
    (fun _ _ => ⟨404, "plain text", none, none⟩) "GET" 3 (by decide) rfl

end AgilePlace
